import Mathlib

/-!
Shallow embedding of `src/marketing_miner.py` (Marketing Miner MCP server).

The repository exposes two read-only tools over the Marketing Miner HTTP API:
`get_keyword_suggestions` and `get_search_volume_data`, both built on the
dispatcher `make_mm_request`.  We model decoded JSON values as an inductive
type, Python dictionary/truthiness semantics explicitly, and Python runtime
exceptions (AttributeError and friends, which the source does not catch inside
the tool bodies) through an `Except` monad.  The outbound HTTP call is modelled
by an oracle (`NetOutcome`) describing what the single `client.get` would
produce; each tool result also records the list of upstream requests that were
issued, so that "no network call is attempted" claims are statable.
-/

/-- Decoded JSON values, as produced by `response.json()` in the source.
Numbers are modelled exactly as the decimals of the JSON wire format:
`num m e` denotes `m / 10 ^ e`.  Integral numbers (`e` normalizing to zero)
print without a decimal point (Python `str` on `int`), other decimals print
in shortest decimal form (Python `str` on the floats of this API's
payloads). -/
inductive Json where
| null : Json
| bool (b : Bool) : Json
| num (m : Int) (e : Nat) : Json
| str (s : String) : Json
| arr (xs : List Json) : Json
| obj (fields : List (String × Json)) : Json

/-- Python truthiness (`bool(x)`) for decoded JSON values: `None`, `False`,
`0`, `""`, `[]` and `{}` are falsy, everything else truthy. -/
def Json.truthy : Json → Bool
| .null => false
| .bool b => b
| .num m _ => !(m == 0)
| .str s => !s.isEmpty
| .arr xs => !xs.isEmpty
| .obj kvs => !kvs.isEmpty

/-- Whether a value is a Python `dict` (models `isinstance(x, dict)`). -/
def Json.isObj : Json → Bool
| .obj _ => true
| _ => false

/-- Python runtime exceptions that the tool bodies can raise (they are not
caught in the source, so they abort the call). -/
inductive PyExn where
| attributeError : PyExn
| typeError : PyExn
| valueError : PyExn
| keyError : PyExn
| indexError : PyExn

/-- Models `d.get(k, default)` on a value known to be a dict, given its
field list (first binding wins; Python dicts have unique keys). -/
def dictGetD (kvs : List (String × Json)) (k : String) (d : Json) : Json :=
  (List.lookup k kvs).getD d

/-- Models the Python test `k in d` on a dict. -/
def hasField (kvs : List (String × Json)) (k : String) : Bool :=
  (List.lookup k kvs).isSome

/-- Models `v.get(k, default)` on an arbitrary value: raises AttributeError
when `v` is not a dict, exactly as Python does. -/
def pyGetE (v : Json) (k : String) (d : Json) : Except PyExn Json :=
  match v with
  | .obj kvs => .ok (dictGetD kvs k d)
  | _ => .error .attributeError

/-- Models `for x in v`: lists yield elements, strings yield one-character
strings, dicts yield their keys, anything else raises TypeError. -/
def pyIter : Json → Except PyExn (List Json)
| .arr xs => .ok xs
| .str s => .ok (s.data.map (fun c => Json.str (String.singleton c)))
| .obj kvs => .ok (kvs.map (fun kv => Json.str kv.1))
| _ => .error .typeError

/-- Models `len(v)` (TypeError on unsized values). -/
def pyLen : Json → Except PyExn Nat
| .arr xs => .ok xs.length
| .str s => .ok s.length
| .obj kvs => .ok kvs.length
| _ => .error .typeError

/-- Models `v[0]` as used on the `data` sequence of the search-volume tool. -/
def pyIndex0 : Json → Except PyExn Json
| .arr (x :: _) => .ok x
| .arr [] => .error .indexError
| .str s =>
    match s.data with
    | c :: _ => .ok (.str (String.singleton c))
    | [] => .error .indexError
| .obj _ => .error .keyError
| _ => .error .typeError

/-- Models the Python comparison `v == "s"` for a decoded value against a
string literal. -/
def isStr (v : Json) (s : String) : Bool :=
  match v with
  | .str t => t == s
  | _ => false

/-- Normalization of a decimal `m / 10 ^ e`: strip trailing zero digits so
that the shortest decimal form is printed. -/
def decNorm : Int → Nat → Int × Nat
| m, 0 => (m, 0)
| m, e + 1 => if m % 10 = 0 then decNorm (m / 10) e else (m, e + 1)

/-- Python `str()` of a JSON number `m / 10 ^ e`: integers print without a
decimal point, other decimals print in shortest decimal form. -/
def ratStr (m : Int) (e : Nat) : String :=
  let n := decNorm m e
  if n.2 = 0 then toString n.1
  else
    let a := n.1.natAbs
    let fs := toString (a % 10 ^ n.2)
    let pad := String.mk (List.replicate (n.2 - fs.length) (Char.ofNat 48))
    (if n.1 < 0 then "-" else "") ++ toString (a / 10 ^ n.2) ++ "." ++ pad ++ fs

mutual

/-- Python `repr()` of a decoded JSON value (used when `str` is applied to a
container, since `str(list)`/`str(dict)` use element `repr`s). -/
def pyRepr : Json → String
| .null => "None"
| .bool true => "True"
| .bool false => "False"
| .num m e => ratStr m e
| .str s => "\x27" ++ s ++ "\x27"
| .arr xs => "[" ++ String.intercalate ", " (pyReprList xs) ++ "]"
| .obj kvs => "\x7b" ++ String.intercalate ", " (pyReprFields kvs) ++ "\x7d"

/-- The `repr`s of a list of values. -/
def pyReprList : List Json → List String
| [] => []
| x :: xs => pyRepr x :: pyReprList xs

/-- The `repr`s of a dict's bindings. -/
def pyReprFields : List (String × Json) → List String
| [] => []
| (k, v) :: xs => ("\x27" ++ k ++ "\x27: " ++ pyRepr v) :: pyReprFields xs

end

/-- Python `str()` of a decoded JSON value, as interpolated by the source's
f-strings. -/
def pyStr : Json → String
| .null => "None"
| .bool true => "True"
| .bool false => "False"
| .num m e => ratStr m e
| .str s => s
| .arr xs => "[" ++ String.intercalate ", " (pyReprList xs) ++ "]"
| .obj kvs => "\x7b" ++ String.intercalate ", " (pyReprFields kvs) ++ "\x7d"

/-- The character for a decimal digit `n < 10`. -/
def digitChar (n : Nat) : Char := Char.ofNat (48 + n % 10)

/-- A number below 100 rendered as exactly two digit characters. -/
def twoDigitStr (n : Nat) : String := String.mk [digitChar (n / 10), digitChar n]

/-- Round the fraction `N / D` (with `D > 0`) to the nearest integer, ties
to even (the rounding used by Python `format(x, ".2f")` on representable
midpoints). -/
def roundHalfEvenInt (N D : Int) : Int :=
  let f := N.fdiv D
  let r := N - f * D
  if 2 * r < D then f
  else if D < 2 * r then f + 1
  else if f % 2 = 0 then f else f + 1

/-- Models the Python format specifier `:.2f` on the value `m / 10 ^ e`:
fixed-point rendering with exactly two digits after the decimal point. -/
def format2f (m : Int) (e : Nat) : String :=
  let n := roundHalfEvenInt (m * 100) ((10 : Int) ^ e)
  (if n < 0 then "-" else "") ++ toString (n.natAbs / 100) ++ "." ++ twoDigitStr (n.natAbs % 100)

/-- Models `", ".join(v)`: joins an iterable of strings, raising TypeError
when `v` is not iterable or contains a non-string element. -/
def strList? : List Json → Option (List String)
| [] => some []
| .str s :: rest => (strList? rest).map (s :: ·)
| _ :: _ => none

/-- Comma-join as performed by the source on `serp_features`. -/
def pyJoinComma : Json → Except PyExn String
| .arr xs =>
    match strList? xs with
    | some ss => .ok (String.intercalate ", " ss)
    | none => .error .typeError
| .str s => .ok (String.intercalate ", " (s.data.map (fun c => String.singleton c)))
| .obj kvs => .ok (String.intercalate ", " (kvs.map (fun kv => kv.1)))
| _ => .error .typeError

/-- Truthiness of an optional string argument (Python: `None` and `""` are
falsy). Used both for the API token and for `suggestions_type`. -/
def optStrTruthy (o : Option String) : Bool := !(o.getD "").isEmpty

/-- One upstream HTTP GET request, as the dispatcher would issue it. -/
structure MMRequest where
  url : String
  params : List (String × String)

/-- Result of the dispatcher: the requests actually issued (at most one, as
the source has no retry loop) together with the returned dictionary. -/
structure DispatchOut where
  requests : List MMRequest
  body : Json

/-- Result of a tool call: the upstream requests issued and the returned
value (normally a string), or the Python exception that aborted the call. -/
structure ToolOut where
  requests : List MMRequest
  output : Except PyExn Json

/-- The error dictionaries the dispatcher builds (`{"status": "error",
"message": msg}`). -/
def errObj (msg : String) : Json :=
  .obj [("status", .str "error"), ("message", .str msg)]

/-- Constant `API_BASE` from the source. -/
def API_BASE : String := "https://profilers-api.marketingminer.com"

/-- Constant `SUGGESTIONS_TYPES` from the source. -/
def SUGGESTIONS_TYPES : List String := ["questions", "new", "trending"]

/-- Constant `LANGUAGES` from the source. -/
def LANGUAGES : List String := ["cs", "sk", "pl", "hu", "ro", "gb", "us"]

/-- Modelled from the external `httpx` dependency (all released versions):
`Response.raise_for_status()` raises an `HTTPStatusError` whose `str()` names
the error class, the status code with its reason phrase, and the request URL,
followed by a documentation link.  The response body is not part of the
message. -/
def httpErrorType (status : Nat) : String :=
  if status / 100 = 1 then "Informational response"
  else if status / 100 = 3 then "Redirect response"
  else if status / 100 = 4 then "Client error"
  else if status / 100 = 5 then "Server error"
  else "Invalid status code"

/-- The `str()` of the `HTTPStatusError` raised by `raise_for_status` (see
`httpErrorType` for provenance). -/
def httpStatusErrorMessage (status : Nat) (reason : String) (url : String) : String :=
  httpErrorType status ++ " \x27" ++ toString status ++ " " ++ reason ++ "\x27 for url \x27"
    ++ url ++ "\x27\x0aFor more information check: https://developer.mozilla.org/en-US/docs/Web/HTTP/Status/"
    ++ toString status

/-- Oracle for what the single `client.get` of `make_mm_request` would
produce: a 2xx response with a decoded JSON body, a non-2xx response (which
makes `raise_for_status` throw), or a transport-level exception with the
given description. -/
inductive NetOutcome where
| ok (body : Json) : NetOutcome
| httpError (status : Nat) (reason : String) (respBody : String) : NetOutcome
| transportError (msg : String) : NetOutcome

/-- Embedding of `make_mm_request` (src/marketing_miner.py lines 28-45):
fails closed when the token is unset or empty, otherwise appends the token to
the query parameters and issues exactly one GET; `raise_for_status` failures
and transport errors are folded into an error dictionary whose message embeds
the exception description. -/
def make_mm_request (apiToken : Option String) (net : NetOutcome) (url : String)
    (params : List (String × String)) : DispatchOut :=
  if !(optStrTruthy apiToken) then
    ⟨[], errObj "Chybí konfigurace API tokenu. Nastavte proměnnou prostředí MM_API_TOKEN."⟩
  else
    let req : MMRequest := ⟨url, params ++ [("api_token", apiToken.getD "")]⟩
    match net with
    | .ok body => ⟨[req], body⟩
    | .httpError s r _ =>
        ⟨[req], errObj ("Chyba při volání Marketing Miner API: " ++ httpStatusErrorMessage s r url)⟩
    | .transportError m =>
        ⟨[req], errObj ("Chyba při volání Marketing Miner API: " ++ m)⟩

/-- The CPC segment shared by both formatters (lines 106-108 and 165-167):
emitted only when the `cpc` key is present and truthy; raises AttributeError
when the truthy value is not a dict, as `cpc.get` would. -/
def cpcPart (kvs : List (String × Json)) : Except PyExn (List String) :=
  if hasField kvs "cpc" && (dictGetD kvs "cpc" .null).truthy then
    match dictGetD kvs "cpc" .null with
    | .obj c =>
        .ok ["CPC: " ++ pyStr (dictGetD c "value" (.str "N/A")) ++ " "
          ++ pyStr (dictGetD c "currency_code" (.str ""))]
    | _ => .error .attributeError
  else .ok []

/-- The SERP-features segment (lines 113-115): emitted only when the key is
present, extended data was requested and the value is truthy. -/
def serpPart (wkd : Bool) (kvs : List (String × Json)) : Except PyExn (List String) :=
  if hasField kvs "serp_features" && wkd && (dictGetD kvs "serp_features" .null).truthy then
    match pyJoinComma (dictGetD kvs "serp_features" (.arr [])) with
    | .ok f => .ok ["SERP features: " ++ f]
    | .error e => .error e
  else .ok []

/-- One rendered line of the suggestions formatter (lines 101-117), for a
keyword record known to be a dict. -/
def renderKeywordEntry (wkd : Bool) (kvs : List (String × Json)) : Except PyExn String := do
  let base := ["Klíčové slovo: " ++ pyStr (dictGetD kvs "keyword" (.str "N/A"))]
  let sv := if hasField kvs "search_volume" then
      ["Hledanost: " ++ pyStr (dictGetD kvs "search_volume" (.str "N/A"))]
    else []
  let cpc ← cpcPart kvs
  let diff := if hasField kvs "difficulty" && wkd then
      ["Obtížnost: " ++ pyStr (dictGetD kvs "difficulty" (.str "N/A"))]
    else []
  let serp ← serpPart wkd kvs
  pure (String.intercalate " | " (base ++ sv ++ cpc ++ diff ++ serp))

/-- The rendering loop of the suggestions formatter (lines 96-117): skips
entries that are not dicts, renders the rest in order. -/
def renderEntries (wkd : Bool) : List Json → Except PyExn (List String)
| [] => .ok []
| .obj kvs :: rest => do
    let line ← renderKeywordEntry wkd kvs
    let lines ← renderEntries wkd rest
    pure (line :: lines)
| _ :: rest => renderEntries wkd rest

/-- Embedding of the response handling of `get_keyword_suggestions`
(lines 84-121), parameterized by the truthiness of `with_keyword_data`. -/
def processSuggestions (wkd : Bool) (body : Json) : Except PyExn Json := do
  let status ← pyGetE body "status" .null
  if isStr status "error" then
    pyGetE body "message" (.str "Nastala neznámá chyba")
  else if isStr status "success" then do
    let d ← pyGetE body "data" (.obj [])
    let kws ← pyGetE d "keywords" (.arr [])
    if kws.truthy then do
      let items ← pyIter kws
      let lines ← renderEntries wkd items
      pure (.str (String.intercalate "\x0a" lines))
    else pure (.str "Nebyla nalezena žádná data pro tento dotaz.")
  else pure (.str "Neočekávaný formát odpovědi z API")

/-- Embedding of `get_keyword_suggestions` (lines 47-121).  `apiToken` is the
`MM_API_TOKEN` configuration, `net` the oracle for the would-be HTTP call;
`with_keyword_data` (the spec's `include_extended`) defaults to `some false`
in the source. -/
def get_keyword_suggestions (apiToken : Option String) (net : NetOutcome)
    (lang keyword : String) (suggestions_type : Option String)
    (with_keyword_data : Option Bool) : ToolOut :=
  if !(LANGUAGES.contains lang) then
    ⟨[], .ok (.str ("Nepodporovaný jazyk: " ++ lang ++ ". Podporované jazyky jsou: "
      ++ String.intercalate ", " LANGUAGES))⟩
  else if optStrTruthy suggestions_type
      && !(SUGGESTIONS_TYPES.contains (suggestions_type.getD "")) then
    ⟨[], .ok (.str ("Nepodporovaný typ návrhů: " ++ suggestions_type.getD ""
      ++ ". Podporované typy jsou: " ++ String.intercalate ", " SUGGESTIONS_TYPES))⟩
  else
    let params := [("lang", lang), ("keyword", keyword)]
      ++ (if optStrTruthy suggestions_type then [("suggestions_type", suggestions_type.getD "")] else [])
      ++ (if with_keyword_data.isSome then
            [("with_keyword_data", if with_keyword_data.getD false then "true" else "false")]
          else [])
    let d := make_mm_request apiToken net (API_BASE ++ "/keywords/suggestions") params
    ⟨d.requests, processSuggestions (with_keyword_data == some true) d.body⟩

/-- The year-over-year segment of the volume formatter (lines 169-172): the
fractional value is multiplied by 100 and rendered with two decimal places. -/
def yoyPart (kvs : List (String × Json)) : Except PyExn (List String) :=
  if hasField kvs "yoy_change" then
    match dictGetD kvs "yoy_change" .null with
    | .null => .ok []
    | .num m e => .ok ["Meziroční změna: " ++ format2f (m * 100) e ++ "%"]
    | .bool b => .ok ["Meziroční změna: " ++ format2f ((if b then 1 else 0) * 100) 0 ++ "%"]
    | _ => .error .valueError
  else .ok []

/-- The peak-month segment (lines 174-175). -/
def peakPart (kvs : List (String × Json)) : List String :=
  if hasField kvs "peak_month" && (dictGetD kvs "peak_month" .null).truthy then
    ["Nejsilnější měsíc: " ++ pyStr (dictGetD kvs "peak_month" .null)]
  else []

/-- The monthly-volume segment (lines 177-184): one indented line per entry
of the mapping, in its iteration (= insertion) order; `.items()` on a truthy
non-dict raises AttributeError. -/
def monthlyPart (kvs : List (String × Json)) : Except PyExn (List String) :=
  if hasField kvs "monthly_sv" && (dictGetD kvs "monthly_sv" .null).truthy then
    match dictGetD kvs "monthly_sv" .null with
    | .obj m =>
        .ok ("Měsíční hledanost:" :: m.map (fun kv => "  - Měsíc " ++ kv.1 ++ ": " ++ pyStr kv.2))
    | _ => .error .attributeError
  else .ok []

/-- The `result` line list built for the first volume record (lines 160-184);
raises AttributeError when the record is not a dict, as `keyword_data.get`
would. -/
def volumeResultLines : Json → Except PyExn (List String)
| .obj kvs => do
    let base := ["Klíčové slovo: " ++ pyStr (dictGetD kvs "keyword" (.str "N/A")),
                 "Hledanost: " ++ pyStr (dictGetD kvs "search_volume" (.str "N/A"))]
    let cpc ← cpcPart kvs
    let yoy ← yoyPart kvs
    let monthly ← monthlyPart kvs
    pure (base ++ cpc ++ yoy ++ peakPart kvs ++ monthly)
| _ => .error .attributeError

/-- Embedding of the response handling of `get_search_volume_data`
(lines 147-188), including the `if not data or len(data) == 0` guard and the
truncation to `data[0]`. -/
def processVolume (body : Json) : Except PyExn Json := do
  let status ← pyGetE body "status" .null
  if isStr status "error" then
    pyGetE body "message" (.str "Nastala neznámá chyba")
  else if isStr status "success" then do
    let d ← pyGetE body "data" (.arr [])
    let empty ← if d.truthy then (do
        let n ← pyLen d
        pure (n == 0))
      else pure true
    if empty then
      pure (.str "Nebyla nalezena žádná data pro toto klíčové slovo.")
    else do
      let kd ← pyIndex0 d
      let lines ← volumeResultLines kd
      pure (.str (String.intercalate "\x0a" lines))
  else pure (.str "Neočekávaný formát odpovědi z API")

/-- Embedding of `get_search_volume_data` (lines 123-188). -/
def get_search_volume_data (apiToken : Option String) (net : NetOutcome)
    (lang keyword : String) : ToolOut :=
  if !(LANGUAGES.contains lang) then
    ⟨[], .ok (.str ("Nepodporovaný jazyk: " ++ lang ++ ". Podporované jazyky jsou: "
      ++ String.intercalate ", " LANGUAGES))⟩
  else
    let d := make_mm_request apiToken net (API_BASE ++ "/keywords/search-volume-data")
      [("lang", lang), ("keyword", keyword)]
    ⟨d.requests, processVolume d.body⟩

/-- A success body for the suggestions endpoint carrying the given keyword
records. -/
def suggestionsBody (records : List Json) : Json :=
  .obj [("status", .str "success"), ("data", .obj [("keywords", .arr records)])]

/-- The fully-populated keyword record of the specification's round-trip
example. -/
def seoRecord : Json :=
  .obj [("keyword", .str "seo"), ("search_volume", .num 1000 0),
        ("cpc", .obj [("value", .num 25 1), ("currency_code", .str "USD")]),
        ("difficulty", .num 45 0),
        ("serp_features", .arr [.str "featured_snippet", .str "paa"])]

/-- Prefix test on character lists. -/
def isPre : List Char → List Char → Bool
| [], _ => true
| _ :: _, [] => false
| a :: as, b :: bs => (a == b) && isPre as bs

/-- Whether `needle` occurs inside `hay` as a contiguous run. -/
def hasSub : List Char → List Char → Bool
| [], needle => needle.isEmpty
| h :: t, needle => isPre needle (h :: t) || hasSub t needle

/-- Substring test used to state which pieces of text an error message
embeds. -/
def containsSub (hay needle : String) : Bool :=
  hasSub hay.data needle.data

/-- Whether a value is a JSON string. -/
def isStringV : Json → Bool
| .str _ => true
| _ => false

/-- Whether a value is a sequence of strings (the shape of `serp_features`
in the specification's KeywordRecord). -/
def allStrings : Json → Bool
| .arr xs => xs.all isStringV
| _ => false

/-- A keyword-record entry conforming to the specification's KeywordRecord
data model in the fields the formatter dereferences: a truthy `cpc` must be
a mapping, and a rendered `serp_features` must be a sequence of strings.
Non-mapping entries conform vacuously (they are skipped). -/
def entryConformant (wkd : Bool) : Json → Bool
| .obj kvs =>
    (!(hasField kvs "cpc" && (dictGetD kvs "cpc" .null).truthy)
      || (dictGetD kvs "cpc" .null).isObj) &&
    (!(hasField kvs "serp_features" && wkd && (dictGetD kvs "serp_features" .null).truthy)
      || allStrings (dictGetD kvs "serp_features" .null))
| _ => true

/-- Whether a string ends in a decimal point followed by exactly two digit
characters (the shape of a value rendered with `:.2f`). -/
def twoDecimalStr (s : String) : Bool :=
  match s.data.reverse with
  | d1 :: d2 :: c :: _ => d1.isDigit && d2.isDigit && (c == Char.ofNat 46)
  | _ => false

/-- A success body for the search-volume endpoint carrying the given data
sequence. -/
def volumeBody (records : List Json) : Json :=
  .obj [("status", .str "success"), ("data", .arr records)]

/-- Monadic bind on `Except` applied to a success value. -/
theorem pyBind_ok {α β : Type} (a : α) (f : α → Except PyExn β) :
    (Except.ok a : Except PyExn α) >>= f = f a := rfl

/-- C1: with extended data requested, the single fully-populated record of
the round-trip example renders to exactly the documented pipe-joined line,
with the fields in the fixed order keyword, search_volume, cpc, difficulty,
serp_features. -/
theorem spec_c1_full_record_line :
    (get_keyword_suggestions (some "token") (.ok (suggestionsBody [seoRecord]))
        "cs" "seo" none (some true)).output
      = .ok (.str "Klíčové slovo: seo | Hledanost: 1000 | CPC: 2.5 USD | Obtížnost: 45 | SERP features: featured_snippet, paa") := by
  rfl

/-- C2: for every language code outside the supported set, both tools return
the plain-text message enumerating exactly the 7 supported codes, and no
upstream request is issued. -/
theorem spec_c2_unsupported_language :
    ∀ (tok : Option String) (net : NetOutcome) (lang keyword : String)
      (st : Option String) (wkd : Option Bool),
    LANGUAGES.contains lang = false →
    (get_keyword_suggestions tok net lang keyword st wkd).requests = [] ∧
    (get_keyword_suggestions tok net lang keyword st wkd).output
      = .ok (.str ("Nepodporovaný jazyk: " ++ lang ++ ". Podporované jazyky jsou: "
          ++ String.intercalate ", " LANGUAGES)) ∧
    String.intercalate ", " LANGUAGES = "cs, sk, pl, hu, ro, gb, us" ∧
    (get_search_volume_data tok net lang keyword).requests = [] ∧
    (get_search_volume_data tok net lang keyword).output
      = .ok (.str ("Nepodporovaný jazyk: " ++ lang ++ ". Podporované jazyky jsou: "
          ++ String.intercalate ", " LANGUAGES)) := by
  intro tok net lang keyword st wkd h
  refine ⟨?_, ?_, rfl, ?_, ?_⟩ <;>
    · simp only [get_keyword_suggestions, get_search_volume_data, h]
      rfl

/-- Witness for C2 at the unsupported language code "de". -/
theorem spec_c2_witness :
    LANGUAGES.contains "de" = false ∧
    (get_keyword_suggestions (some "token") (.ok .null) "de" "seo" none none).requests = [] ∧
    (get_keyword_suggestions (some "token") (.ok .null) "de" "seo" none none).output
      = .ok (.str "Nepodporovaný jazyk: de. Podporované jazyky jsou: cs, sk, pl, hu, ro, gb, us") := by
  refine ⟨by decide, ?_, ?_⟩
  · exact (spec_c2_unsupported_language (some "token") (.ok .null) "de" "seo" none none (by decide)).1
  · exact ((spec_c2_unsupported_language (some "token") (.ok .null) "de" "seo" none none
      (by decide)).2.1).trans (by rfl)

/-- C3: with the credential unset, every call with valid arguments returns
the missing-credential message and no upstream request is issued, for both
tools. -/
theorem spec_c3_missing_token :
    ∀ (net : NetOutcome) (lang keyword : String) (st : Option String) (wkd : Option Bool),
    LANGUAGES.contains lang = true →
    (optStrTruthy st = true → SUGGESTIONS_TYPES.contains (st.getD "") = true) →
    (get_keyword_suggestions none net lang keyword st wkd).requests = [] ∧
    (get_keyword_suggestions none net lang keyword st wkd).output
      = .ok (.str "Chybí konfigurace API tokenu. Nastavte proměnnou prostředí MM_API_TOKEN.") ∧
    (get_search_volume_data none net lang keyword).requests = [] ∧
    (get_search_volume_data none net lang keyword).output
      = .ok (.str "Chybí konfigurace API tokenu. Nastavte proměnnou prostředí MM_API_TOKEN.") := by
  intro net lang keyword st wkd hlang hst
  have hty : (optStrTruthy st && !(SUGGESTIONS_TYPES.contains (st.getD ""))) = false := by
    cases h : optStrTruthy st
    · rfl
    · simp only [h, Bool.true_and, hst h, Bool.not_true]
  refine ⟨?_, ?_, ?_, ?_⟩ <;>
    · simp only [get_keyword_suggestions, get_search_volume_data, hlang, hty]
      rfl

/-- Witness for C3 with a valid call. -/
theorem spec_c3_witness :
    LANGUAGES.contains "cs" = true ∧
    (get_keyword_suggestions none (.ok .null) "cs" "seo" none none).output
      = .ok (.str "Chybí konfigurace API tokenu. Nastavte proměnnou prostředí MM_API_TOKEN.") ∧
    (get_search_volume_data none (.ok .null) "cs" "seo").requests = [] := by
  refine ⟨by decide, ?_, ?_⟩
  · exact (spec_c3_missing_token (.ok .null) "cs" "seo" none none (by decide)
      (fun h => by cases h)).2.1
  · exact (spec_c3_missing_token (.ok .null) "cs" "seo" none none (by decide)
      (fun h => by cases h)).2.2.1

/-- C9: only the first element of a non-empty success data sequence affects
the result of get_search_volume_data; any later elements are ignored. -/
theorem spec_c9_first_element_only :
    ∀ (tok : Option String) (lang keyword : String) (x : Json) (rest : List Json),
    get_search_volume_data tok (.ok (volumeBody (x :: rest))) lang keyword
      = get_search_volume_data tok (.ok (volumeBody [x])) lang keyword := by
  intro tok lang keyword x rest
  have hp : processVolume (volumeBody (x :: rest)) = processVolume (volumeBody [x]) := rfl
  cases hl : LANGUAGES.contains lang
  · simp only [get_search_volume_data, hl]
    rfl
  · cases tok with
    | none => rfl
    | some t =>
        by_cases ht : t.isEmpty
        · simp only [get_search_volume_data, make_mm_request, optStrTruthy,
            Option.getD_some, hl, ht]
          rfl
        · have e1 : get_search_volume_data (some t) (.ok (volumeBody (x :: rest))) lang keyword
              = ⟨[⟨API_BASE ++ "/keywords/search-volume-data",
                    [("lang", lang), ("keyword", keyword)] ++ [("api_token", t)]⟩],
                  processVolume (volumeBody (x :: rest))⟩ := by
            simp only [get_search_volume_data, make_mm_request, optStrTruthy,
              Option.getD_some, hl, ht]
            rfl
          have e2 : get_search_volume_data (some t) (.ok (volumeBody [x])) lang keyword
              = ⟨[⟨API_BASE ++ "/keywords/search-volume-data",
                    [("lang", lang), ("keyword", keyword)] ++ [("api_token", t)]⟩],
                  processVolume (volumeBody [x])⟩ := by
            simp only [get_search_volume_data, make_mm_request, optStrTruthy,
              Option.getD_some, hl, ht]
            rfl
          rw [e1, e2, hp]

/-- C10: an empty-string suggestions_type behaves exactly like an absent one
(no enumeration message; the parameter is omitted from the upstream query),
because both the validation and the query building test truthiness. -/
theorem spec_c10_empty_suggestions_type :
    ∀ (tok : Option String) (net : NetOutcome) (lang keyword : String) (wkd : Option Bool),
    get_keyword_suggestions tok net lang keyword (some "") wkd
      = get_keyword_suggestions tok net lang keyword none wkd ∧
    ((get_keyword_suggestions tok net lang keyword (some "") wkd).requests.all
      (fun r => (List.lookup "suggestions_type" r.params).isNone)) = true := by
  intro tok net lang keyword wkd
  constructor
  · rfl
  · cases hl : LANGUAGES.contains lang
    · simp only [get_keyword_suggestions, hl]
      rfl
    · cases tok with
      | none =>
          simp only [get_keyword_suggestions, hl]
          rfl
      | some t =>
          by_cases ht : t.isEmpty <;> cases wkd <;> cases net <;>
            · simp only [get_keyword_suggestions, make_mm_request, optStrTruthy,
                Option.getD_some, hl, ht]
              rfl

/-- Helper: a list is a Boolean prefix of itself extended on the right. -/
theorem isPre_append_self (l t : List Char) : isPre l (l ++ t) = true := by
  induction l with
  | nil => rfl
  | cons c cs ih => simp [isPre, ih]

/-- Helper: a contiguous run is found by `hasSub`. -/
theorem hasSub_append (a x b : List Char) : hasSub (a ++ x ++ b) x = true := by
  induction a with
  | nil =>
      cases x with
      | nil => cases b <;> simp [hasSub, isPre]
      | cons c cs => simp [hasSub, isPre, isPre_append_self]
  | cons a0 as ih =>
      simp only [List.cons_append, hasSub, Bool.or_eq_true]
      exact Or.inr (by simpa [List.append_assoc] using ih)

/-- Helper: `containsSub` holds of any explicit concatenation. -/
theorem containsSub_intro (hay needle a b : String) (h : hay = a ++ needle ++ b) :
    containsSub hay needle = true := by
  subst h
  simp only [containsSub, String.data_append]
  simpa [List.append_assoc] using hasSub_append a.data needle.data b.data

/-- C4 counterexample: for a non-2xx response with body "TAJNE-TELO-ODPOVEDI",
the dispatcher's failure message embeds the status code but not the raw
response body, refuting the claim that it embeds both. -/
theorem spec_c4_counterexample :
    (make_mm_request (some "token") (.httpError 404 "Not Found" "TAJNE-TELO-ODPOVEDI")
        (API_BASE ++ "/keywords/search-volume-data") [("lang", "cs"), ("keyword", "seo")]).requests.length = 1 ∧
    (make_mm_request (some "token") (.httpError 404 "Not Found" "TAJNE-TELO-ODPOVEDI")
        (API_BASE ++ "/keywords/search-volume-data") [("lang", "cs"), ("keyword", "seo")]).body
      = errObj ("Chyba při volání Marketing Miner API: "
          ++ httpStatusErrorMessage 404 "Not Found" (API_BASE ++ "/keywords/search-volume-data")) ∧
    containsSub ("Chyba při volání Marketing Miner API: "
        ++ httpStatusErrorMessage 404 "Not Found" (API_BASE ++ "/keywords/search-volume-data"))
      "404" = true ∧
    containsSub ("Chyba při volání Marketing Miner API: "
        ++ httpStatusErrorMessage 404 "Not Found" (API_BASE ++ "/keywords/search-volume-data"))
      "TAJNE-TELO-ODPOVEDI" = false := by
  refine ⟨rfl, rfl, by decide, by decide⟩

/-- C4 (amended): for every non-2xx upstream response the dispatcher makes
exactly one request and returns an error dictionary whose message embeds the
HTTP status code (through the wrapped exception text); the response body is
not part of the message. -/
theorem spec_c4_http_failure_embeds_status :
    ∀ (tok : Option String) (status : Nat) (reason respBody url : String)
      (params : List (String × String)),
    optStrTruthy tok = true →
    status / 100 ≠ 2 →
    (make_mm_request tok (.httpError status reason respBody) url params).requests.length = 1 ∧
    (make_mm_request tok (.httpError status reason respBody) url params).body
      = errObj ("Chyba při volání Marketing Miner API: " ++ httpStatusErrorMessage status reason url) ∧
    containsSub ("Chyba při volání Marketing Miner API: " ++ httpStatusErrorMessage status reason url)
      (toString status) = true := by
  intro tok status reason respBody url params htok _
  refine ⟨?_, ?_, ?_⟩
  · simp only [make_mm_request, htok, Bool.not_true]
    rfl
  · simp only [make_mm_request, htok, Bool.not_true]
    rfl
  · exact containsSub_intro _ _
      ("Chyba při volání Marketing Miner API: " ++ httpErrorType status ++ " \x27")
      (" " ++ reason ++ "\x27 for url \x27" ++ url
        ++ "\x27\x0aFor more information check: https://developer.mozilla.org/en-US/docs/Web/HTTP/Status/"
        ++ toString status)
      (by simp only [httpStatusErrorMessage, String.append_assoc])

/-- Witness for C4's amended theorem at a concrete 404 response. -/
theorem spec_c4_witness :
    optStrTruthy (some "token") = true ∧ (404 / 100 ≠ 2) ∧
    (make_mm_request (some "token") (.httpError 404 "Not Found" "telo")
        "https://example.org" []).requests.length = 1 := by
  refine ⟨by decide, by decide, ?_⟩
  exact (spec_c4_http_failure_embeds_status (some "token") 404 "Not Found" "telo"
    "https://example.org" [] (by decide) (by decide)).1

/-- C5 counterexample: a well-formed body that lacks a status field is not
processed as a success payload; the tool answers with the fixed
unexpected-format message instead of rendering `data.keywords` or the
no-data message. -/
theorem spec_c5_counterexample :
    (get_keyword_suggestions (some "token")
        (.ok (.obj [("data", .obj [("keywords", .arr [.obj [("keyword", .str "seo")]])])]))
        "cs" "seo" none (some true)).output
      = .ok (.str "Neočekávaný formát odpovědi z API") ∧
    (Except.ok (Json.str "Neočekávaný formát odpovědi z API") : Except PyExn Json)
      ≠ .ok (.str "Klíčové slovo: seo") ∧
    (Except.ok (Json.str "Neočekávaný formát odpovědi z API") : Except PyExn Json)
      ≠ .ok (.str "Nebyla nalezena žádná data pro tento dotaz.") := by
  refine ⟨rfl, by simp, by simp⟩

/-- C6 counterexample: on the success payload whose `data` field is an empty
list, the suggestions tool raises AttributeError (`[].get` does not exist)
instead of returning the fixed no-data string. -/
theorem spec_c6_counterexample :
    (get_keyword_suggestions (some "token")
        (.ok (.obj [("status", .str "success"), ("data", .arr [])]))
        "cs" "seo" none (some false)).output
      = .error .attributeError ∧
    (Except.error PyExn.attributeError : Except PyExn Json)
      ≠ .ok (.str "Nebyla nalezena žádná data pro tento dotaz.") := by
  refine ⟨rfl, by simp⟩

/-- C7 counterexample: a keyword list holding one malformed (non-mapping)
entry and one mapping entry whose truthy `cpc` is a number makes the whole
rendering abort with AttributeError, so not every well-formed entry is
rendered. -/
theorem spec_c7_counterexample :
    (get_keyword_suggestions (some "token")
        (.ok (suggestionsBody [.str "junk", .obj [("keyword", .str "a"), ("cpc", .num 5 0)]]))
        "cs" "seo" none (some true)).output
      = .error .attributeError ∧
    Json.isObj (.str "junk") = false ∧
    (Except.error PyExn.attributeError : Except PyExn Json)
      ≠ .ok (.str "Klíčové slovo: a") := by
  refine ⟨rfl, rfl, by simp⟩

/-- C5 (amended): the dispatcher hands every decoded 2xx body through
unchanged, but get_keyword_suggestions processes it as a success payload
only when its top-level status equals "success"; any other non-"error"
status — in particular an absent status field — yields the fixed
unexpected-format message instead of a rendering of `data.keywords`. -/
theorem spec_c5_status_gate :
    ∀ (tok : Option String) (url : String) (params : List (String × String)) (body : Json)
      (lang keyword : String) (st : Option String) (wkd : Option Bool)
      (bkvs : List (String × Json)),
    optStrTruthy tok = true →
    (make_mm_request tok (.ok body) url params).body = body ∧
    (LANGUAGES.contains lang = true →
     (optStrTruthy st = true → SUGGESTIONS_TYPES.contains (st.getD "") = true) →
     isStr (dictGetD bkvs "status" .null) "error" = false →
     isStr (dictGetD bkvs "status" .null) "success" = false →
     (get_keyword_suggestions tok (.ok (.obj bkvs)) lang keyword st wkd).output
       = .ok (.str "Neočekávaný formát odpovědi z API")) := by
  intro tok url params body lang keyword st wkd bkvs htok
  constructor
  · simp only [make_mm_request, htok, Bool.not_true]
    rfl
  · intro hlang hstv herr hsucc
    have hty : (optStrTruthy st && !(SUGGESTIONS_TYPES.contains (st.getD ""))) = false := by
      cases h : optStrTruthy st
      · rfl
      · simp only [h, Bool.true_and, hstv h, Bool.not_true]
    have hout : (get_keyword_suggestions tok (.ok (.obj bkvs)) lang keyword st wkd).output
        = processSuggestions (wkd == some true) (.obj bkvs) := by
      simp only [get_keyword_suggestions, hlang, hty, make_mm_request, htok, Bool.not_true]
      rfl
    have hps : processSuggestions (wkd == some true) (.obj bkvs)
        = .ok (.str "Neočekávaný formát odpovědi z API") := by
      simp only [processSuggestions, pyGetE, pyBind_ok, herr, hsucc]
      rfl
    rw [hout, hps]

/-- Witness for C5's amended theorem on a body carrying keywords but no
status field. -/
theorem spec_c5_witness :
    (make_mm_request (some "token")
        (.ok (.obj [("data", .obj [("keywords", .arr [.obj [("keyword", .str "seo")]])])]))
        (API_BASE ++ "/keywords/suggestions") []).body
      = .obj [("data", .obj [("keywords", .arr [.obj [("keyword", .str "seo")]])])] ∧
    (get_keyword_suggestions (some "token")
        (.ok (.obj [("data", .obj [("keywords", .arr [.obj [("keyword", .str "seo")]])])]))
        "cs" "seo" none (some true)).output
      = .ok (.str "Neočekávaný formát odpovědi z API") := by
  have h := spec_c5_status_gate (some "token") (API_BASE ++ "/keywords/suggestions") []
    (.obj [("data", .obj [("keywords", .arr [.obj [("keyword", .str "seo")]])])])
    "cs" "seo" none (some true)
    [("data", .obj [("keywords", .arr [.obj [("keyword", .str "seo")]])])] (by decide)
  exact ⟨h.1, h.2 (by decide) (fun hc => by cases hc) rfl rfl⟩

/-- C6 (amended): for every success payload whose `data` field is absent or
a mapping, an absent or empty `data.keywords` makes get_keyword_suggestions
return the fixed non-empty no-data string with no exception; a `data` field
that is present but not a mapping instead raises AttributeError (see the
counterexample). -/
theorem spec_c6_no_data_message :
    ∀ (tok : Option String) (lang keyword : String) (st : Option String) (wkd : Option Bool)
      (bkvs : List (String × Json)),
    optStrTruthy tok = true →
    LANGUAGES.contains lang = true →
    (optStrTruthy st = true → SUGGESTIONS_TYPES.contains (st.getD "") = true) →
    List.lookup "status" bkvs = some (.str "success") →
    (List.lookup "data" bkvs = none ∨
      (∃ dkvs, List.lookup "data" bkvs = some (.obj dkvs) ∧
        (List.lookup "keywords" dkvs = none ∨ List.lookup "keywords" dkvs = some (.arr [])))) →
    (get_keyword_suggestions tok (.ok (.obj bkvs)) lang keyword st wkd).output
      = .ok (.str "Nebyla nalezena žádná data pro tento dotaz.") ∧
    "Nebyla nalezena žádná data pro tento dotaz." ≠ "" := by
  intro tok lang keyword st wkd bkvs htok hlang hstv hstatus hdata
  have hty : (optStrTruthy st && !(SUGGESTIONS_TYPES.contains (st.getD ""))) = false := by
    cases h : optStrTruthy st
    · rfl
    · simp only [h, Bool.true_and, hstv h, Bool.not_true]
  refine ⟨?_, by decide⟩
  have hout : (get_keyword_suggestions tok (.ok (.obj bkvs)) lang keyword st wkd).output
      = processSuggestions (wkd == some true) (.obj bkvs) := by
    simp only [get_keyword_suggestions, hlang, hty, make_mm_request, htok, Bool.not_true]
    rfl
  rw [hout]
  simp only [processSuggestions, pyGetE, dictGetD, hstatus, Option.getD_some, pyBind_ok]
  rcases hdata with hnone | ⟨dkvs, hd, hkw⟩
  · simp only [hnone, Option.getD_none]
    rfl
  · simp only [hd, Option.getD_some, pyGetE, pyBind_ok, dictGetD]
    rcases hkw with hk | hk <;> simp only [hk, Option.getD_none, Option.getD_some] <;> rfl

/-- Witness for C6's amended theorem on a success payload with an empty
keywords list. -/
theorem spec_c6_witness :
    (get_keyword_suggestions (some "token")
        (.ok (.obj [("status", .str "success"), ("data", .obj [("keywords", .arr [])])]))
        "cs" "seo" none (some false)).output
      = .ok (.str "Nebyla nalezena žádná data pro tento dotaz.") := by
  exact (spec_c6_no_data_message (some "token") "cs" "seo" none (some false)
    [("status", .str "success"), ("data", .obj [("keywords", .arr [])])]
    (by decide) (by decide) (fun hc => by cases hc) rfl
    (Or.inr ⟨[("keywords", .arr [])], rfl, Or.inr rfl⟩)).1

/-- Helper: a list of string values joins successfully. -/
theorem strList_ok :
    ∀ (xs : List Json), xs.all isStringV = true → ∃ ss, strList? xs = some ss := by
  intro xs
  induction xs with
  | nil => exact fun _ => ⟨[], rfl⟩
  | cons x rest ih =>
      intro h
      simp only [List.all_cons, Bool.and_eq_true] at h
      obtain ⟨ss, hss⟩ := ih h.2
      cases x with
      | str s => exact ⟨s :: ss, by simp [strList?, hss]⟩
      | null => simp [isStringV] at h
      | bool b => simp [isStringV] at h
      | num m e => simp [isStringV] at h
      | arr ys => simp [isStringV] at h
      | obj kvs => simp [isStringV] at h

/-- Helper: a conformant cpc field renders without an exception. -/
theorem cpcPart_ok (kvs : List (String × Json))
    (h : (!(hasField kvs "cpc" && (dictGetD kvs "cpc" .null).truthy)
      || (dictGetD kvs "cpc" .null).isObj) = true) :
    ∃ l, cpcPart kvs = .ok l := by
  cases hc : (hasField kvs "cpc" && (dictGetD kvs "cpc" .null).truthy)
  · exact ⟨[], by simp [cpcPart, hc]⟩
  · rw [hc] at h
    simp only [Bool.not_true, Bool.false_or] at h
    cases hv : dictGetD kvs "cpc" Json.null with
    | obj ckvs =>
        have h2 := hc
        simp only [Bool.and_eq_true] at h2
        obtain ⟨hfc, htr⟩ := h2
        rw [hv] at htr
        exact ⟨["CPC: " ++ pyStr (dictGetD ckvs "value" (.str "N/A")) ++ " "
            ++ pyStr (dictGetD ckvs "currency_code" (.str ""))],
          by simp [cpcPart, hv, hfc, htr]⟩
    | null => rw [hv] at h; simp [Json.isObj] at h
    | bool b => rw [hv] at h; simp [Json.isObj] at h
    | num m e => rw [hv] at h; simp [Json.isObj] at h
    | str s => rw [hv] at h; simp [Json.isObj] at h
    | arr ys => rw [hv] at h; simp [Json.isObj] at h

/-- Helper: a conformant serp_features field renders without an exception. -/
theorem serpPart_ok (wkd : Bool) (kvs : List (String × Json))
    (h : (!(hasField kvs "serp_features" && wkd && (dictGetD kvs "serp_features" .null).truthy)
      || allStrings (dictGetD kvs "serp_features" .null)) = true) :
    ∃ l, serpPart wkd kvs = .ok l := by
  cases hc : (hasField kvs "serp_features" && wkd && (dictGetD kvs "serp_features" .null).truthy)
  · exact ⟨[], by simp [serpPart, hc]⟩
  · rw [hc] at h
    simp only [Bool.not_true, Bool.false_or] at h
    have hf : hasField kvs "serp_features" = true := by
      have h2 := hc
      simp only [Bool.and_eq_true] at h2
      exact h2.1.1
    cases hlk : List.lookup "serp_features" kvs with
    | none => rw [hasField, hlk] at hf; simp at hf
    | some v =>
        have hd : ∀ d, dictGetD kvs "serp_features" d = v := fun d => by
          simp [dictGetD, hlk]
        rw [hd .null] at h
        cases v with
        | arr ys =>
            obtain ⟨ss, hss⟩ := strList_ok ys (by simpa [allStrings] using h)
            have h2 := hc
            simp only [Bool.and_eq_true] at h2
            obtain ⟨⟨hf2, hw⟩, htr⟩ := h2
            rw [hd .null] at htr
            exact ⟨["SERP features: " ++ String.intercalate ", " ss],
              by simp [serpPart, hd, hf2, hw, htr, pyJoinComma, hss]⟩
        | null => simp [allStrings] at h
        | bool b => simp [allStrings] at h
        | num m e => simp [allStrings] at h
        | str s => simp [allStrings] at h
        | obj okvs => simp [allStrings] at h

/-- Helper: a conformant mapping entry renders to a line. -/
theorem renderKeywordEntry_ok (wkd : Bool) (kvs : List (String × Json))
    (h : entryConformant wkd (.obj kvs) = true) :
    ∃ s, renderKeywordEntry wkd kvs = .ok s := by
  simp only [entryConformant, Bool.and_eq_true] at h
  obtain ⟨c, hcp⟩ := cpcPart_ok kvs h.1
  obtain ⟨sp, hsp⟩ := serpPart_ok wkd kvs h.2
  cases hre : renderKeywordEntry wkd kvs with
  | ok s => exact ⟨s, rfl⟩
  | error e =>
      simp [renderKeywordEntry, hcp, hsp, pyBind_ok] at hre

/-- Helper: the rendering loop ignores non-mapping entries entirely. -/
theorem renderEntries_filter (wkd : Bool) (xs : List Json) :
    renderEntries wkd xs = renderEntries wkd (xs.filter Json.isObj) := by
  induction xs with
  | nil => rfl
  | cons x rest ih =>
      cases x <;> simp [renderEntries, List.filter, Json.isObj, ih]

/-- Helper: a list of conformant entries renders to one line per mapping. -/
theorem renderEntries_ok (wkd : Bool) :
    ∀ (xs : List Json), (∀ x ∈ xs, entryConformant wkd x = true) →
      ∃ lines, renderEntries wkd xs = .ok lines ∧
        lines.length = (xs.filter Json.isObj).length := by
  intro xs
  induction xs with
  | nil => exact fun _ => ⟨[], rfl, rfl⟩
  | cons x rest ih =>
      intro h
      obtain ⟨lines, hl, hlen⟩ := ih (fun y hy => h y (List.mem_cons_of_mem _ hy))
      cases x with
      | obj kvs =>
          obtain ⟨s, hs⟩ := renderKeywordEntry_ok wkd kvs (h _ (List.mem_cons_self _ _))
          exact ⟨s :: lines, by simp [renderEntries, hs, hl, pyBind_ok],
            by simp [List.filter, Json.isObj, hlen]⟩
      | null => exact ⟨lines, by simp [renderEntries, hl], by simp [List.filter, Json.isObj, hlen]⟩
      | bool b => exact ⟨lines, by simp [renderEntries, hl], by simp [List.filter, Json.isObj, hlen]⟩
      | num m e => exact ⟨lines, by simp [renderEntries, hl], by simp [List.filter, Json.isObj, hlen]⟩
      | str s => exact ⟨lines, by simp [renderEntries, hl], by simp [List.filter, Json.isObj, hlen]⟩
      | arr ys => exact ⟨lines, by simp [renderEntries, hl], by simp [List.filter, Json.isObj, hlen]⟩

/-- C7 (amended): non-mapping entries are skipped without aborting the rest
of the rendering (the loop behaves as if they were filtered out), and when
every mapping entry conforms to the KeywordRecord data model the tool
renders exactly one line per mapping entry. -/
theorem spec_c7_skip_malformed :
    ∀ (wkd : Bool) (xs : List Json),
    renderEntries wkd xs = renderEntries wkd (xs.filter Json.isObj) ∧
    ((∀ x ∈ xs, entryConformant wkd x = true) → xs ≠ [] →
      ∃ lines, renderEntries wkd xs = .ok lines ∧
        lines.length = (xs.filter Json.isObj).length ∧
        processSuggestions wkd (suggestionsBody xs)
          = .ok (.str (String.intercalate "\x0a" lines))) := by
  intro wkd xs
  refine ⟨renderEntries_filter wkd xs, ?_⟩
  intro hconf hne
  obtain ⟨lines, hl, hlen⟩ := renderEntries_ok wkd xs hconf
  refine ⟨lines, hl, hlen, ?_⟩
  have hemp : xs.isEmpty = false := by
    cases xs with
    | nil => exact absurd rfl hne
    | cons a l => rfl
  have h1 : processSuggestions wkd (suggestionsBody xs)
      = (if (Json.arr xs).truthy = true then
          (pyIter (Json.arr xs)) >>= fun items =>
            (renderEntries wkd items) >>= fun ls =>
              pure (.str (String.intercalate "\x0a" ls))
         else pure (.str "Nebyla nalezena žádná data pro tento dotaz.")) := rfl
  rw [h1]
  simp [Json.truthy, hemp, pyIter, pyBind_ok, hl]

/-- Witness for C7's amended theorem on a list mixing a malformed entry with
one conformant record. -/
theorem spec_c7_witness :
    processSuggestions true (suggestionsBody [.str "junk", .obj [("keyword", .str "a")]])
      = .ok (.str "Klíčové slovo: a") := by
  obtain ⟨lines, hl, hlen, hp⟩ :=
    (spec_c7_skip_malformed true [.str "junk", .obj [("keyword", .str "a")]]).2
      (by decide) (List.cons_ne_nil _ _)
  have h2 : (Except.ok lines : Except PyExn (List String)) = .ok ["Klíčové slovo: a"] :=
    hl.symm.trans rfl
  injection h2 with h3
  rw [hp, h3]
  rfl

/-- Helper: the characters produced by `digitChar` are decimal digits. -/
theorem digitChar_isDigit (n : Nat) : (digitChar n).isDigit = true := by
  unfold digitChar
  have h : n % 10 < 10 := Nat.mod_lt _ (by decide)
  set k := n % 10 with hk
  interval_cases k <;> decide

/-- Helper: values rendered with `format2f` always end in a decimal point
followed by exactly two digits. -/
theorem format2f_twoDecimal (m : Int) (e : Nat) : twoDecimalStr (format2f m e) = true := by
  unfold format2f twoDigitStr
  simp only [twoDecimalStr, String.data_append, List.reverse_append, List.reverse_cons,
    List.reverse_nil, List.nil_append, List.cons_append, List.append_assoc]
  simp [digitChar_isDigit]

/-- C8: whenever the first record of a search-volume success payload carries
a non-null numeric yoy_change, get_search_volume_data renders the line
"Meziroční změna: " followed by the value multiplied by 100 and formatted
with exactly two decimal places. -/
theorem spec_c8_yoy_percentage :
    ∀ (tok : Option String) (lang keyword : String) (kvs : List (String × Json))
      (rest : List Json) (m : Int) (e : Nat) (cs ms : List String),
    optStrTruthy tok = true →
    LANGUAGES.contains lang = true →
    List.lookup "yoy_change" kvs = some (.num m e) →
    cpcPart kvs = .ok cs →
    monthlyPart kvs = .ok ms →
    ∃ lines, volumeResultLines (.obj kvs) = .ok lines ∧
      ("Meziroční změna: " ++ format2f (m * 100) e ++ "%") ∈ lines ∧
      (get_search_volume_data tok (.ok (volumeBody (.obj kvs :: rest))) lang keyword).output
        = .ok (.str (String.intercalate "\x0a" lines)) ∧
      twoDecimalStr (format2f (m * 100) e) = true := by
  intro tok lang keyword kvs rest m e cs ms htok hlang hyoy hcpc hmon
  have hyp : yoyPart kvs = .ok ["Meziroční změna: " ++ format2f (m * 100) e ++ "%"] := by
    simp [yoyPart, hasField, dictGetD, hyoy]
  have hvl : volumeResultLines (.obj kvs)
      = .ok (["Klíčové slovo: " ++ pyStr (dictGetD kvs "keyword" (.str "N/A")),
              "Hledanost: " ++ pyStr (dictGetD kvs "search_volume" (.str "N/A"))]
          ++ cs ++ (["Meziroční změna: " ++ format2f (m * 100) e ++ "%"]
          ++ (peakPart kvs ++ ms))) := by
    simp [volumeResultLines, pyBind_ok, hcpc, hyp, hmon]
  refine ⟨_, hvl, ?_, ?_, format2f_twoDecimal _ _⟩
  · simp [List.mem_append]
  · have hout : (get_search_volume_data tok (.ok (volumeBody (.obj kvs :: rest))) lang keyword).output
        = processVolume (volumeBody (.obj kvs :: rest)) := by
      simp only [get_search_volume_data, hlang, make_mm_request, htok, Bool.not_true]
      rfl
    have hpv : processVolume (volumeBody (.obj kvs :: rest))
        = (volumeResultLines (.obj kvs)) >>= fun ls =>
            pure (.str (String.intercalate "\x0a" ls)) := rfl
    rw [hout, hpv, hvl]
    rfl

/-- Witness for C8: the specification's example value 0.0523 renders as
"5.23%". -/
theorem spec_c8_witness :
    (get_search_volume_data (some "token")
        (.ok (volumeBody [.obj [("keyword", .str "seo"), ("yoy_change", .num 523 4)]]))
        "cs" "seo").output
      = .ok (.str "Klíčové slovo: seo\x0aHledanost: N/A\x0aMeziroční změna: 5.23%") ∧
    format2f (523 * 100) 4 = "5.23" := by
  obtain ⟨lines, hvl, hmem, hout, h2d⟩ := spec_c8_yoy_percentage (some "token") "cs" "seo"
    [("keyword", .str "seo"), ("yoy_change", .num 523 4)] [] 523 4 [] []
    (by decide) (by decide) rfl rfl rfl
  constructor
  · have h2 : (Except.ok lines : Except PyExn (List String))
        = .ok ["Klíčové slovo: seo", "Hledanost: N/A", "Meziroční změna: 5.23%"] :=
      hvl.symm.trans rfl
    injection h2 with h3
    rw [hout, h3]
    rfl
  · rfl
